import Mathlib

/-!
Verification of the transaction-orchestration core of the banking system
(`victord-exe/banking-system`).

The development shallowly embeds the Go code of
  * `internal/transaction/service.go` (Deposit / Withdraw / Transfer / GetHistory),
  * the transaction `Repository` (audit-store pagination queries),
  * the MCP tool registry and its confirmation gate (`mcp_server` / `mcp_models`),
  * the deterministic intent parser's amount extraction (`intent_parser`) together
    with an exact model of IEEE-754 binary64 arithmetic used by `strconv.ParseFloat`
    and Go float multiplication, and
  * the TigerBeetle client's address-resolution bootstrap (`internal/tigerbeetle/client.go`).

External collaborators (relational store, ledger, DNS) are modelled as per-invocation
oracles: an environment record holds the outcome of each external call a single
service invocation can make, and every state-changing call the code issues is
recorded in an explicit event trace, so that statements such as "no state is
mutated" become statements about the trace.
-/

namespace Banking

/-- A user row from the relational store (`models.User`): the fields the
transaction service reads.  `id` is the UUID rendered as a string and
`tigerBeetleAccountID` the linked ledger account. -/
structure User where
  id : String
  tigerBeetleAccountID : Nat
  deriving Repr, DecidableEq

/-- `uuid.Nil` rendered in string form. -/
def nilUUID : String := "00000000-0000-0000-0000-000000000000"

/-- A ledger transfer as the service submits it (`tb_types.Transfer`).
`Uint128`/`uint64` fields are modelled as `Nat`; the values the service
produces (a 32-bit transfer id, account ids, a positive `int64` amount)
never overflow their Go types, so no wrap-around modelling is needed. -/
structure LedgerTransfer where
  id : Nat
  debitAccountID : Nat
  creditAccountID : Nat
  amount : Nat
  ledger : Nat
  code : Nat
  deriving Repr, DecidableEq

/-- `models.TransactionType`. -/
inductive TxType
  | deposit
  | withdraw
  | transfer
  deriving Repr, DecidableEq

/-- `models.TransactionStatus`. -/
inductive TxStatus
  | pending
  | completed
  | failed
  deriving Repr, DecidableEq

/-- The audit-log row the service writes (`models.Transaction`), restricted to
the fields the service sets. -/
structure AuditRecord where
  userID : String
  recipientUserID : Option String
  type : TxType
  amount : Int
  debitAccountID : Nat
  creditAccountID : Nat
  status : TxStatus
  description : String
  tbTransferID : Nat
  deriving Repr, DecidableEq

/-- Errors returned by the transaction service; one constructor per
`fmt.Errorf` site reachable from Deposit / Withdraw / Transfer / GetHistory. -/
inductive TxError
  | depositAmountNotPositive
  | withdrawAmountNotPositive
  | transferAmountNotPositive
  | userLookupFailed
  | senderNotFound
  | balanceCheckFailed
  | insufficientFunds (balance requested : Int)
  | destinationNotFound
  | createTransferFailed
  | transferResultCode (code : Nat)
  | historyQueryFailed
  deriving Repr, DecidableEq

/-- The state-changing external calls a service invocation can issue, in
order.  A balance read or account lookup is not state-changing and is not
recorded. -/
inductive TxEvent
  | createTransfers (batch : List LedgerTransfer)
  | auditWrite (record : AuditRecord)
  deriving Repr, DecidableEq

/-- `uuid.New().ID()` as used for transfer ids: google/uuid's `UUID.ID`
returns `binary.BigEndian.Uint32(uuid[0:4])`, i.e. only the first four bytes
of the 16-byte UUID; `uint64(...)` and `ToUint128` merely widen that 32-bit
value.  `bytes` is the UUID as a list of byte values. -/
def transferIDOfUUID (bytes : List Nat) : Nat :=
  (bytes.getD 0 0 % 256) * 2 ^ 24 + (bytes.getD 1 0 % 256) * 2 ^ 16 +
    (bytes.getD 2 0 % 256) * 2 ^ 8 + bytes.getD 3 0 % 256

/-- Outcomes of the external calls a single transaction-service invocation can
make.  Each field is the oracle answer of the corresponding call site in
`service.go`; `Except Unit` keeps only success/failure of calls whose error
detail the service does not inspect. -/
structure TxEnv where
  /-- `tbClient.SystemAccountID` (`NewClient` sets it to 1). -/
  systemAccountID : Nat
  /-- Outcome of `getUserByID` for the invoking user. -/
  userResult : Except Unit User
  /-- Outcome of `tbClient.GetBalance` on the user's account. -/
  balanceResult : Except Unit Int
  /-- Outcome of `tbClient.LookupAccounts([toAccountID])`: the account ids found. -/
  lookupResult : Except Unit (List Nat)
  /-- Outcome of the recipient lookup `db.Where("tigerbeetle_account_id = ?", ...)`. -/
  recipientResult : Except Unit User
  /-- Outcome of `tbClient.CreateTransfers`: transport error, or per-item result codes
  (TigerBeetle returns an entry only for failed items; the service treats any
  non-empty result list as failure). -/
  createResult : Except Unit (List Nat)
  /-- Outcome of `repo.Create` (the audit write). -/
  auditResult : Except Unit Unit
  /-- Outcome of the GORM `Find` in the history query. -/
  findResult : Except Unit Unit
  /-- The bytes of the `uuid.New()` drawn by this invocation. -/
  uuidBytes : List Nat

/-- `Service.Deposit` from `internal/transaction/service.go`: amount
validation, user lookup, a single-item transfer from the system account to the
user's account, then a best-effort audit write whose failure is logged and
swallowed.  Returns the Go `error` result together with the trace of
state-changing calls issued. -/
def Deposit (env : TxEnv) (userID : String) (amount : Int) :
    Except TxError Unit × List TxEvent :=
  if amount ≤ 0 then (.error .depositAmountNotPositive, [])
  else
    match env.userResult with
    | .error _ => (.error .userLookupFailed, [])
    | .ok user =>
      let transferID := transferIDOfUUID env.uuidBytes
      let t : LedgerTransfer :=
        { id := transferID
          debitAccountID := env.systemAccountID
          creditAccountID := user.tigerBeetleAccountID
          amount := amount.toNat
          ledger := 1
          code := 1 }
      match env.createResult with
      | .error _ => (.error .createTransferFailed, [.createTransfers [t]])
      | .ok (r :: _) => (.error (.transferResultCode r), [.createTransfers [t]])
      | .ok [] =>
        let record : AuditRecord :=
          { userID := user.id
            recipientUserID := none
            type := .deposit
            amount := amount
            debitAccountID := env.systemAccountID
            creditAccountID := user.tigerBeetleAccountID
            status := .completed
            description := s!"Deposit of {amount} cents"
            tbTransferID := transferID }
        match env.auditResult with
        | .error _ =>
          -- `repo.Create` failed: logged at the highest severity and swallowed,
          -- the deposit already committed in the ledger.
          (.ok (), [.createTransfers [t], .auditWrite record])
        | .ok _ => (.ok (), [.createTransfers [t], .auditWrite record])

/-- `Service.Withdraw`: amount validation, user lookup, optimistic pre-flight
balance check (`balance < amount` rejects), a single-item transfer from the
user's account to the system account, then the best-effort audit write. -/
def Withdraw (env : TxEnv) (userID : String) (amount : Int) :
    Except TxError Unit × List TxEvent :=
  if amount ≤ 0 then (.error .withdrawAmountNotPositive, [])
  else
    match env.userResult with
    | .error _ => (.error .userLookupFailed, [])
    | .ok user =>
      match env.balanceResult with
      | .error _ => (.error .balanceCheckFailed, [])
      | .ok balance =>
        if balance < amount then (.error (.insufficientFunds balance amount), [])
        else
          let transferID := transferIDOfUUID env.uuidBytes
          let t : LedgerTransfer :=
            { id := transferID
              debitAccountID := user.tigerBeetleAccountID
              creditAccountID := env.systemAccountID
              amount := amount.toNat
              ledger := 1
              code := 2 }
          match env.createResult with
          | .error _ => (.error .createTransferFailed, [.createTransfers [t]])
          | .ok (r :: _) => (.error (.transferResultCode r), [.createTransfers [t]])
          | .ok [] =>
            let record : AuditRecord :=
              { userID := user.id
                recipientUserID := none
                type := .withdraw
                amount := amount
                debitAccountID := user.tigerBeetleAccountID
                creditAccountID := env.systemAccountID
                status := .completed
                description := s!"Withdrawal of {amount} cents"
                tbTransferID := transferID }
            match env.auditResult with
            | .error _ => (.ok (), [.createTransfers [t], .auditWrite record])
            | .ok _ => (.ok (), [.createTransfers [t], .auditWrite record])

/-- `Service.Transfer`: amount validation, sender lookup, pre-flight balance
check, explicit destination-account lookup in the ledger (transport error or
empty result both yield "destination account not found"), best-effort
recipient-user reverse lookup (used only to link the audit row), a single-item
transfer between the two accounts, then the best-effort audit write. -/
def Transfer (env : TxEnv) (fromUserID : String) (toAccountID : Nat) (amount : Int) :
    Except TxError Unit × List TxEvent :=
  if amount ≤ 0 then (.error .transferAmountNotPositive, [])
  else
    match env.userResult with
    | .error _ => (.error .senderNotFound, [])
    | .ok fromUser =>
      match env.balanceResult with
      | .error _ => (.error .balanceCheckFailed, [])
      | .ok balance =>
        if balance < amount then (.error (.insufficientFunds balance amount), [])
        else
          match env.lookupResult with
          | .error _ => (.error .destinationNotFound, [])
          | .ok destAccounts =>
            if destAccounts.isEmpty then (.error .destinationNotFound, [])
            else
              -- recipient reverse lookup: the zero-value `toUser` of a failed
              -- lookup has `ID == uuid.Nil`, so `RecipientUserID` stays unset
              let recipientUserID : Option String :=
                match env.recipientResult with
                | .error _ => none
                | .ok toUser => if toUser.id ≠ nilUUID then some toUser.id else none
              let transferID := transferIDOfUUID env.uuidBytes
              let t : LedgerTransfer :=
                { id := transferID
                  debitAccountID := fromUser.tigerBeetleAccountID
                  creditAccountID := toAccountID
                  amount := amount.toNat
                  ledger := 1
                  code := 3 }
              match env.createResult with
              | .error _ => (.error .createTransferFailed, [.createTransfers [t]])
              | .ok (r :: _) => (.error (.transferResultCode r), [.createTransfers [t]])
              | .ok [] =>
                let record : AuditRecord :=
                  { userID := fromUser.id
                    recipientUserID := recipientUserID
                    type := .transfer
                    amount := amount
                    debitAccountID := fromUser.tigerBeetleAccountID
                    creditAccountID := toAccountID
                    status := .completed
                    description := s!"Transfer of {amount} cents to account {toAccountID}"
                    tbTransferID := transferID }
                match env.auditResult with
                | .error _ => (.ok (), [.createTransfers [t], .auditWrite record])
                | .ok _ => (.ok (), [.createTransfers [t], .auditWrite record])

/-- A persisted `transactions` row as the history query sees it: the audit
fields plus the `created_at` timestamp the query orders by (modelled as a
numeric timestamp). -/
structure AuditRow where
  userID : String
  recipientUserID : Option String
  type : TxType
  amount : Int
  createdAt : Nat
  deriving Repr, DecidableEq

/-- The `ORDER BY created_at DESC` comparison: `a` may precede `b` when `a` is
at least as new. -/
def newerFirst (a b : AuditRow) : Bool := b.createdAt ≤ a.createdAt

/-- The row-selection predicate of `Repository.GetAllByUserID`:
`WHERE user_id = ? OR recipient_user_id = ?`. -/
def involvesUser (userID : String) (r : AuditRow) : Bool :=
  r.userID == userID || r.recipientUserID == some userID

/-- `Repository.GetAllByUserID`: offset `(page-1)*limit` clamped at 0, then
`WHERE user_id = ? OR recipient_user_id = ?` / `ORDER BY created_at DESC` /
`LIMIT limit` / `OFFSET offset` over the audit table.  `page` and `limit` are
Go `int`s; the callers always pass a positive `limit`, for which GORM's
`Limit` takes that many rows. -/
def GetAllByUserID (table : List AuditRow) (userID : String) (page limit : Int) :
    List AuditRow :=
  let offset := (page - 1) * limit
  let offset := if offset < 0 then 0 else offset
  ((((table.filter (involvesUser userID)).mergeSort newerFirst).drop
    offset.toNat).take limit.toNat)

/-- The projection of a row into `models.TransactionDTO` (`Transaction.ToDTO`),
restricted to the fields modelled; the conversion copies fields one-to-one and
neither reorders nor drops rows. -/
structure TransactionDTO where
  userID : String
  recipientUserID : Option String
  type : TxType
  amount : Int
  createdAt : Nat
  deriving Repr, DecidableEq

/-- `Transaction.ToDTO` on the modelled fields. -/
def toDTO (r : AuditRow) : TransactionDTO :=
  { userID := r.userID
    recipientUserID := r.recipientUserID
    type := r.type
    amount := r.amount
    createdAt := r.createdAt }

/-- `Service.GetHistory`: clamp `page` to 1 when `page < 1` and `limit` to the
default 10 when outside `[1, 100]`, look the user up, run
`repo.GetAllByUserID` over the audit table, and map the rows to DTOs. -/
def GetHistory (env : TxEnv) (table : List AuditRow) (userID : String)
    (page limit : Int) : Except TxError (List TransactionDTO) :=
  let page := if page < 1 then 1 else page
  let limit := if limit < 1 ∨ 100 < limit then 10 else limit
  match env.userResult with
  | .error _ => .error .userLookupFailed
  | .ok user =>
    match env.findResult with
    | .error _ => .error .historyQueryFailed
    | .ok _ => .ok ((GetAllByUserID table user.id page limit).map toDTO)

end Banking

namespace Banking.Chat

/-- JSON-style values carried in tool argument maps (`map[string]interface{}`).
JSON numbers decode to Go `float64`; their exact values are modelled as
rationals. -/
inductive JVal
  | num (x : ℚ)
  | str (s : String)
  | bool (b : Bool)
  | null
  deriving Repr, DecidableEq

/-- Tool argument maps. -/
abbrev Args := List (String × JVal)

/-- The result type of a tool execution (`chat.ToolResult`), with the Go
zero values as defaults. -/
structure ToolResult where
  success : Bool := false
  data : Args := []
  message : String := ""
  requiresConfirmation : Bool := false
  confirmationMessage : String := ""
  toolName : String := ""
  arguments : Args := []
  deriving Repr, DecidableEq

/-- A tool handler (`chat.ToolHandler`): it receives the user id and the
arguments, may change the bank state `σ`, and returns a `ToolResult` together
with an optional Go error (modelled by its message). -/
def ToolHandler (σ : Type) : Type :=
  String → Args → σ → (ToolResult × Option String) × σ

/-- A registered tool (`chat.Tool`).  The JSON `InputSchema` is static
metadata never consulted by `ExecuteTool` and is not modelled. -/
structure Tool (σ : Type) where
  name : String
  description : String
  handler : Option (ToolHandler σ)
  requiresConfirmation : Bool

/-- Round a rational to the nearest integer, ties to even (the rounding used
both by correctly-rounded decimal formatting and by IEEE-754 binary64). -/
def roundEven (x : ℚ) : ℤ :=
  let m := ⌊x⌋
  let f := x - (m : ℚ)
  if f < 1 / 2 then m
  else if 1 / 2 < f then m + 1
  else if m % 2 = 0 then m else m + 1

/-- `fmt.Sprintf("%.2f", x)` on an exactly-represented amount: fixed
two-decimal rendering of the value, rounded to the nearest cent. -/
def fmtUSD (x : ℚ) : String :=
  let c := roundEven (x * 100)
  let sign := if c < 0 then "-" else ""
  let a := c.natAbs
  let fr := a % 100
  sign ++ toString (a / 100) ++ "." ++ (if fr < 10 then "0" else "") ++ toString fr

/-- `Tool.GetConfirmationMessage`: per-tool confirmation prompt built from the
proposed arguments, falling back to a generic prompt when the expected
arguments are missing or of the wrong dynamic type. -/
def getConfirmationMessage (name : String) (args : Args) : String :=
  match name with
  | "deposit" =>
    match List.lookup "amount" args with
    | some (.num a) => "Do you want to deposit $" ++ fmtUSD a ++ "?"
    | _ => "Please confirm this operation."
  | "withdraw" =>
    match List.lookup "amount" args with
    | some (.num a) => "Do you want to withdraw $" ++ fmtUSD a ++ "?"
    | _ => "Please confirm this operation."
  | "transfer" =>
    match List.lookup "amount" args, List.lookup "to_account_id" args with
    | some (.num a), some (.str toAccount) =>
      "Do you want to transfer $" ++ fmtUSD a ++ " to account " ++ toAccount ++ "?"
    | _, _ => "Please confirm this operation."
  | _ => "Please confirm this operation."

/-- The MCP server: the registry of banking tools keyed by name. -/
structure MCPServer (σ : Type) where
  tools : String → Option (Tool σ)

/-- `NewMCPServer`: the fixed five-tool catalog of `registerTools` with the
handlers injected by `initializeToolHandlers` (which sets a handler for every
tool and panics otherwise, so every catalog entry has a handler). -/
def mkMCPServer {σ : Type}
    (handleGetBalance handleGetHistory handleDeposit handleWithdraw
      handleTransfer : ToolHandler σ) : MCPServer σ where
  tools := fun name =>
    match name with
    | "get_balance" =>
      some { name := "get_balance"
             description := "Get the current account balance for the authenticated user. Returns balance in USD and cents."
             handler := some handleGetBalance
             requiresConfirmation := false }
    | "get_transaction_history" =>
      some { name := "get_transaction_history"
             description := "Retrieve recent transaction history for the authenticated user. Returns a paginated list of transactions."
             handler := some handleGetHistory
             requiresConfirmation := false }
    | "deposit" =>
      some { name := "deposit"
             description := "Deposit money into the user's account. Requires confirmation before execution. Amount must be in USD (e.g., 100.50)."
             handler := some handleDeposit
             requiresConfirmation := true }
    | "withdraw" =>
      some { name := "withdraw"
             description := "Withdraw money from the user's account. Requires confirmation before execution. Amount must be in USD. Validates sufficient balance."
             handler := some handleWithdraw
             requiresConfirmation := true }
    | "transfer" =>
      some { name := "transfer"
             description := "Transfer money to another account. Requires confirmation before execution. Validates destination account exists and sender has sufficient balance."
             handler := some handleTransfer
             requiresConfirmation := true }
    | _ => none

/-- `MCPServer.ExecuteTool`: unknown tool and missing handler are errors; a
tool that requires confirmation invoked with `confirmed = false` returns the
confirmation request without touching the handler or the state; otherwise the
handler runs and its result or error is propagated. -/
def ExecuteTool {σ : Type} (server : MCPServer σ) (toolName userID : String)
    (args : Args) (confirmed : Bool) (st : σ) :
    (ToolResult × Option String) × σ :=
  match server.tools toolName with
  | none => (({}, some s!"tool not found"), st)
  | some tool =>
    match tool.handler with
    | none => (({}, some s!"tool has no handler registered"), st)
    | some h =>
      if tool.requiresConfirmation && !confirmed then
        (({ success := false
            requiresConfirmation := true
            confirmationMessage := getConfirmationMessage tool.name args
            toolName := toolName
            arguments := args
            message := "Confirmation required for this operation" }, none), st)
      else
        match h userID args st with
        | ((result, some e), st') =>
          (({ success := false, message := s!"Tool execution failed: {e}" }, some e), st')
        | ((result, none), st') => ((result, none), st')

end Banking.Chat

namespace Banking.Chat

/-! ### Exact model of the binary64 arithmetic in `extractAmount`

`extractAmount` parses the matched token with `strconv.ParseFloat` (correctly
rounded to the nearest IEEE-754 binary64 value, ties to even) and multiplies
by 100 in `float64` (one correctly rounded operation), before truncating with
`int64(...)`.  Every value in this pipeline is nonnegative (the amount pattern
has no sign), so doubles are modelled as the exact nonnegative rationals they
denote, represented as unreduced numerator/denominator pairs of naturals; all
values arising from decimal amount tokens lie in the normal range, where
rounding with unbounded exponent coincides with IEEE-754 rounding. -/

/-- An exact nonnegative rational as an unreduced numerator/denominator pair
(denominators are always positive powers of 2 and 10 at the call sites).  The
arithmetic layer beneath the binary64 model, kept in `Nat` so that every
claim evaluates by kernel reduction. -/
structure PRat where
  num : Nat
  den : Nat
  deriving Repr, DecidableEq

/-- Value comparison `a ≤ b` by cross-multiplication. -/
def PRat.le (a b : PRat) : Bool := a.num * b.den ≤ b.num * a.den

/-- Value comparison `a < b` by cross-multiplication. -/
def PRat.lt (a b : PRat) : Bool := a.num * b.den < b.num * a.den

/-- Exact product. -/
def PRat.mul (a b : PRat) : PRat := ⟨a.num * b.num, a.den * b.den⟩

/-- `⌊a⌋`. -/
def PRat.floor (a : PRat) : Nat := a.num / a.den

/-- Round to the nearest integer, ties to even: compare twice the remainder
of the floor division against the denominator. -/
def PRat.roundEven (a : PRat) : Nat :=
  let m := a.floor
  let r := a.num - m * a.den
  if 2 * r < a.den then m
  else if a.den < 2 * r then m + 1
  else if m % 2 = 0 then m else m + 1

/-- `2 ^ e` for an integer exponent. -/
def PRat.pow2 (e : ℤ) : PRat :=
  if 0 ≤ e then ⟨2 ^ e.toNat, 1⟩ else ⟨1, 2 ^ (-e).toNat⟩

/-- Fuel-bounded binary logarithm: `lg fuel n = ⌊log₂ n⌋` whenever
`1 ≤ n ≤ 2 ^ fuel` (the call sites use `lg n n`). -/
def lg : Nat → Nat → Nat
  | 0, _ => 0
  | fuel + 1, n => if n ≤ 1 then 0 else lg fuel (n / 2) + 1

/-- `⌊log₂ q⌋` for a positive rational: an estimate from the numerator and
denominator logarithms, corrected by a bounded search over the five
candidates it can be off by. -/
def floorLog2 (q : PRat) : ℤ :=
  let r : ℤ := (lg q.num q.num : ℤ) - (lg q.den q.den : ℤ)
  (((List.range 5).map (fun i => r - 2 + i)).find?
    (fun k => (PRat.pow2 k).le q && q.lt (PRat.pow2 (k + 1)))).getD r

/-- Round a positive rational to the nearest binary64 value: scale into the
53-bit mantissa range `[2^52, 2^53)` and round the mantissa to the nearest
integer, ties to even. -/
def round64pos (q : PRat) : PRat :=
  let e := floorLog2 q - 52
  (PRat.mul ⟨(q.mul (PRat.pow2 (-e))).roundEven, 1⟩ (PRat.pow2 e))

/-- Round a nonnegative rational to the nearest binary64 value (round to
nearest, ties to even, unbounded exponent). -/
def round64 (q : PRat) : PRat :=
  if q.num = 0 then ⟨0, 1⟩ else round64pos q

/-- IEEE binary64 multiplication of two exactly represented nonnegative
doubles. -/
def mul64 (a b : PRat) : PRat := round64 (a.mul b)

/-- `strconv.ParseFloat(s, 64)` on the exact decimal value `q` of the token:
the nearest double, or `none` when the value overflows to infinity (in which
case Go returns `ErrRange` as well and `extractAmount` yields 0). -/
def parseFloat64 (q : PRat) : Option PRat :=
  let r := round64 q
  if (PRat.pow2 1024).le r then none else some r

/-- Go's `\s` character class (`[\t\n\f\r ]`). -/
def isSpaceGo (c : Char) : Bool :=
  c = ' ' || c = '\t' || c = '\n' || c = '\x0c' || c = '\r'

/-- Try to match the amount pattern `\$?\s*(\d+(?:\.\d{1,2})?)` anchored at
the head of `cs`, returning the captured group split into integer digits and
fraction digits.  The optional `\$` and the greedy `\s*`, `\d+` and
`\.\d{1,2}` mirror Go's leftmost-first (Perl-style) matching: when the head
is `'$'` the branch consuming it is tried, and its failure implies the
empty-`\$?` branch fails at the same position as well. -/
def matchAmountAt (cs : List Char) : Option (List Char × List Char) :=
  let cs := match cs with
    | '$' :: rest => rest
    | _ => cs
  let cs := cs.dropWhile isSpaceGo
  let ds := cs.takeWhile Char.isDigit
  if ds.isEmpty then none
  else
    match cs.drop ds.length with
    | '.' :: r2 =>
      let fs := (r2.takeWhile Char.isDigit).take 2
      if fs.isEmpty then some (ds, []) else some (ds, fs)
    | _ => some (ds, [])

/-- `amountPattern.FindStringSubmatch`: the leftmost match of the amount
pattern, found by scanning candidate start positions left to right. -/
def findAmountToken : List Char → Option (List Char × List Char)
  | [] => none
  | c :: rest =>
    match matchAmountAt (c :: rest) with
    | some t => some t
    | none => findAmountToken rest

/-- Decimal digits to a natural number. -/
def digitsToNat (ds : List Char) : Nat :=
  ds.foldl (fun acc c => 10 * acc + (c.toNat - '0'.toNat)) 0

/-- The exact rational value of a captured decimal token
`intDigits.fracDigits`. -/
def tokenValue (t : List Char × List Char) : PRat :=
  ⟨digitsToNat t.1 * 10 ^ t.2.length + digitsToNat t.2, 10 ^ t.2.length⟩

/-- `extractAmount` from the intent parser: find the first amount token, parse
it as a `float64`, multiply by 100 in `float64`, and truncate to `int64`
(truncation toward zero is `⌊·⌋` on these nonnegative values; out-of-range
float-to-int conversions are implementation-defined in Go and do not arise);
`0` when no token matches or parsing fails. -/
def extractAmount (message : String) : ℤ :=
  match findAmountToken message.data with
  | none => 0
  | some tok =>
    match parseFloat64 (tokenValue tok) with
    | none => 0
    | some amount => ((mul64 amount ⟨100, 1⟩).floor : ℤ)

end Banking.Chat

namespace Banking.Resolve

/-- External interactions of the address-resolution bootstrap, in order.  The
vocabulary includes a backoff delay so that its absence from every trace is
expressible. -/
inductive NetEvent
  | lookupHost (host : String)
  | sleep
  | connect (address : String)
  deriving Repr, DecidableEq

/-- Oracle outcomes for the network calls of `NewClient`/`resolveAddress`. -/
structure NetEnv where
  /-- Outcome of `net.SplitHostPort(address)`: `none` on error (then the whole
  address is taken as the host and port defaults to 3000). -/
  splitResult : Option (String × String)
  /-- Whether `net.ParseIP(host)` succeeds, i.e. the host is already an IP. -/
  hostIsIP : Bool
  /-- Outcome of the `net.LookupHost` call on each attempt (1-based). -/
  lookups : Nat → Except Unit (List String)

/-- `net.JoinHostPort` (bracketing of IPv6 literals not modelled). -/
def joinHostPort (host port : String) : String := host ++ ":" ++ port

/-- The loop exit condition `lastErr == nil && len(ips) > 0`. -/
def lookupGood (r : Except Unit (List String)) : Bool :=
  match r with
  | .ok ips => !ips.isEmpty
  | .error _ => false

/-- The retry loop `for attempt := 1; attempt <= 3; attempt++` of
`resolveAddress`: stop at the first good lookup, otherwise keep the last
outcome after three attempts.  The loop body contains no delay (only a comment
noting one could be added), so no `sleep` event is ever emitted. -/
def resolveAttempts (env : NetEnv) (host : String) :
    Except Unit (List String) × List NetEvent :=
  let r1 := env.lookups 1
  if lookupGood r1 then (r1, [.lookupHost host])
  else
    let r2 := env.lookups 2
    if lookupGood r2 then (r2, [.lookupHost host, .lookupHost host])
    else (env.lookups 3, [.lookupHost host, .lookupHost host, .lookupHost host])

/-- `resolveAddress`: split host and port (defaulting the port on error), pass
an IP literal through unchanged, otherwise resolve with the retry loop; a
final error or an empty IP list is a resolution failure, else the first IP is
joined with the port. -/
def resolveAddress (env : NetEnv) (address : String) :
    Except Unit String × List NetEvent :=
  let hp := match env.splitResult with
    | some hp => hp
    | none => (address, "3000")
  let host := hp.1
  let port := hp.2
  if env.hostIsIP then (.ok (joinHostPort host port), [])
  else
    match resolveAttempts env host with
    | (.error _, evs) => (.error (), evs)
    | (.ok ips, evs) =>
      match ips with
      | [] => (.error (), evs)
      | ip :: _ => (.ok (joinHostPort ip port), evs)

/-- The resolution phase of `NewClient`: on a resolution failure the error is
logged as a warning and the original address is used, and client creation
proceeds to the connection attempt either way.  Returns the address passed to
`tb.NewClient` together with the network trace. -/
def NewClientResolve (env : NetEnv) (address : String) : String × List NetEvent :=
  match resolveAddress env address with
  | (.error _, evs) => (address, evs ++ [.connect address])
  | (.ok resolvedAddr, evs) => (resolvedAddr, evs ++ [.connect resolvedAddr])

end Banking.Resolve

namespace Banking

/-! ## Claims about the transaction orchestrator -/

/-- C2: for each of Deposit, Withdraw and Transfer, if the ledger transfer
submission succeeds (`CreateTransfers` returns no per-item errors) but the
subsequent audit write fails, the operation still returns success (`nil`
error) to the caller. -/
theorem audit_failure_still_success (env : TxEnv) (userID : String)
    (toAccountID : Nat) (amount : Int) (user : User) (b : Int)
    (accts : List Nat)
    (hamt : 0 < amount)
    (huser : env.userResult = .ok user)
    (hbal : env.balanceResult = .ok b)
    (hble : amount ≤ b)
    (hlookup : env.lookupResult = .ok accts)
    (hne : accts ≠ [])
    (hcreate : env.createResult = .ok [])
    (haudit : env.auditResult = .error ()) :
    (Deposit env userID amount).1 = .ok () ∧
    (Withdraw env userID amount).1 = .ok () ∧
    (Transfer env userID toAccountID amount).1 = .ok () := by
  have hnpos : ¬ amount ≤ 0 := by omega
  have hnlt : ¬ b < amount := by omega
  have hempty : accts.isEmpty = false := by
    cases accts with
    | nil => exact absurd rfl hne
    | cons a l => rfl
  refine ⟨?_, ?_, ?_⟩ <;>
    simp [Deposit, Withdraw, Transfer, huser, hbal, hlookup, hcreate, haudit,
      hnpos, hnlt, hempty]

/-- Witness for C2 at a concrete environment. -/
theorem audit_failure_still_success_witness :
    (Deposit
      { systemAccountID := 1
        userResult := .ok ⟨"alice", 42⟩
        balanceResult := .ok 500
        lookupResult := .ok [7]
        recipientResult := .error ()
        createResult := .ok []
        auditResult := .error ()
        findResult := .ok ()
        uuidBytes := [1, 2, 3, 4] } "alice" 100).1 = .ok () ∧
    (Withdraw
      { systemAccountID := 1
        userResult := .ok ⟨"alice", 42⟩
        balanceResult := .ok 500
        lookupResult := .ok [7]
        recipientResult := .error ()
        createResult := .ok []
        auditResult := .error ()
        findResult := .ok ()
        uuidBytes := [1, 2, 3, 4] } "alice" 100).1 = .ok () ∧
    (Transfer
      { systemAccountID := 1
        userResult := .ok ⟨"alice", 42⟩
        balanceResult := .ok 500
        lookupResult := .ok [7]
        recipientResult := .error ()
        createResult := .ok []
        auditResult := .error ()
        findResult := .ok ()
        uuidBytes := [1, 2, 3, 4] } "alice" 7 100).1 = .ok () :=
  audit_failure_still_success _ "alice" 7 100 ⟨"alice", 42⟩ 500 [7]
    (by decide) rfl rfl (by decide) rfl (by decide) rfl rfl

/-- C3: when the pre-flight balance read returns a balance strictly below
the requested positive amount, Withdraw (and the identical pre-check in
Transfer) returns the insufficient-funds error, submits nothing to the ledger
and writes no audit record: the event trace is empty. -/
theorem preflight_insufficient_funds (env : TxEnv) (userID : String)
    (toAccountID : Nat) (amount : Int) (user : User) (b : Int)
    (hamt : 0 < amount)
    (huser : env.userResult = .ok user)
    (hbal : env.balanceResult = .ok b)
    (hlt : b < amount) :
    Withdraw env userID amount = (.error (.insufficientFunds b amount), []) ∧
    Transfer env userID toAccountID amount =
      (.error (.insufficientFunds b amount), []) := by
  have hnpos : ¬ amount ≤ 0 := by omega
  constructor <;> simp [Withdraw, Transfer, huser, hbal, hlt, hnpos]

/-- Witness for C3 at a concrete environment (balance 100, request 101). -/
theorem preflight_insufficient_funds_witness :
    Withdraw
      { systemAccountID := 1
        userResult := .ok ⟨"bob", 9⟩
        balanceResult := .ok 100
        lookupResult := .ok [7]
        recipientResult := .error ()
        createResult := .ok []
        auditResult := .ok ()
        findResult := .ok ()
        uuidBytes := [1, 2, 3, 4] } "bob" 101 =
      (.error (.insufficientFunds 100 101), []) ∧
    Transfer
      { systemAccountID := 1
        userResult := .ok ⟨"bob", 9⟩
        balanceResult := .ok 100
        lookupResult := .ok [7]
        recipientResult := .error ()
        createResult := .ok []
        auditResult := .ok ()
        findResult := .ok ()
        uuidBytes := [1, 2, 3, 4] } "bob" 7 101 =
      (.error (.insufficientFunds 100 101), []) :=
  preflight_insufficient_funds _ "bob" 7 101 ⟨"bob", 9⟩ 100
    (by decide) rfl rfl (by decide)

/-- C4: when the ledger lookup of the destination account returns no
account, a Transfer that has reached that lookup (positive amount, sender
found, pre-flight balance check passed) fails with the not-found error before
any mutation: nothing is submitted to the ledger and no audit record is
written. -/
theorem transfer_unknown_destination (env : TxEnv) (fromUserID : String)
    (toAccountID : Nat) (amount : Int) (user : User) (b : Int)
    (hamt : 0 < amount)
    (huser : env.userResult = .ok user)
    (hbal : env.balanceResult = .ok b)
    (hble : amount ≤ b)
    (hlookup : env.lookupResult = .ok []) :
    Transfer env fromUserID toAccountID amount = (.error .destinationNotFound, []) := by
  have hnpos : ¬ amount ≤ 0 := by omega
  have hnlt : ¬ b < amount := by omega
  simp [Transfer, huser, hbal, hlookup, hnpos, hnlt]

/-- Witness for C4 at a concrete environment. -/
theorem transfer_unknown_destination_witness :
    Transfer
      { systemAccountID := 1
        userResult := .ok ⟨"carol", 11⟩
        balanceResult := .ok 1000
        lookupResult := .ok []
        recipientResult := .error ()
        createResult := .ok []
        auditResult := .ok ()
        findResult := .ok ()
        uuidBytes := [1, 2, 3, 4] } "carol" 999 100 =
      (.error .destinationNotFound, []) :=
  transfer_unknown_destination _ "carol" 999 100 ⟨"carol", 11⟩ 1000
    (by decide) rfl rfl (by decide) rfl

/-- C9: the pre-flight check rejects only when balance is strictly below
the requested amount; a request for exactly the (positive) balance passes it,
and both Withdraw and Transfer proceed to the ledger submission: the first
event of the trace is the `CreateTransfers` call, whatever its outcome. -/
theorem preflight_allows_exact_balance (env : TxEnv) (userID : String)
    (toAccountID : Nat) (user : User) (b : Int) (accts : List Nat)
    (hpos : 0 < b)
    (huser : env.userResult = .ok user)
    (hbal : env.balanceResult = .ok b)
    (hlookup : env.lookupResult = .ok accts)
    (hne : accts ≠ []) :
    (Withdraw env userID b).2.head? = some (.createTransfers
      [{ id := transferIDOfUUID env.uuidBytes
         debitAccountID := user.tigerBeetleAccountID
         creditAccountID := env.systemAccountID
         amount := b.toNat
         ledger := 1
         code := 2 }]) ∧
    (Transfer env userID toAccountID b).2.head? = some (.createTransfers
      [{ id := transferIDOfUUID env.uuidBytes
         debitAccountID := user.tigerBeetleAccountID
         creditAccountID := toAccountID
         amount := b.toNat
         ledger := 1
         code := 3 }]) := by
  have hnpos : ¬ b ≤ 0 := by omega
  have hnlt : ¬ b < b := by omega
  have hempty : accts.isEmpty = false := by
    cases accts with
    | nil => exact absurd rfl hne
    | cons a l => rfl
  constructor <;>
    rcases hc : env.createResult with u | l <;>
    try cases l
  all_goals cases ha : env.auditResult
  all_goals simp [Withdraw, Transfer, huser, hbal, hlookup, hc, ha, hnpos, hnlt, hempty]

/-- Witness for C9 at a concrete environment (balance 250, request 250). -/
theorem preflight_allows_exact_balance_witness :
    (Withdraw
      { systemAccountID := 1
        userResult := .ok ⟨"dave", 13⟩
        balanceResult := .ok 250
        lookupResult := .ok [7]
        recipientResult := .error ()
        createResult := .ok []
        auditResult := .ok ()
        findResult := .ok ()
        uuidBytes := [0, 0, 0, 5] } "dave" 250).2.head? = some (.createTransfers
      [{ id := transferIDOfUUID [0, 0, 0, 5]
         debitAccountID := 13
         creditAccountID := 1
         amount := (250 : Int).toNat
         ledger := 1
         code := 2 }]) ∧
    (Transfer
      { systemAccountID := 1
        userResult := .ok ⟨"dave", 13⟩
        balanceResult := .ok 250
        lookupResult := .ok [7]
        recipientResult := .error ()
        createResult := .ok []
        auditResult := .ok ()
        findResult := .ok ()
        uuidBytes := [0, 0, 0, 5] } "dave" 7 250).2.head? = some (.createTransfers
      [{ id := transferIDOfUUID [0, 0, 0, 5]
         debitAccountID := 13
         creditAccountID := 7
         amount := (250 : Int).toNat
         ledger := 1
         code := 3 }]) :=
  preflight_allows_exact_balance _ "dave" 7 ⟨"dave", 13⟩ 250 [7]
    (by decide) rfl rfl rfl (by decide)

/-- C10: Transfer performs no check that the destination differs from the
sender; with sufficient balance and an existing destination equal to the
sender's own ledger account, it passes all orchestrator-level validations and
submits a ledger transfer whose debit and credit account coincide. -/
theorem transfer_to_self_not_rejected (env : TxEnv) (fromUserID : String)
    (user : User) (b amount : Int) (accts : List Nat)
    (hamt : 0 < amount)
    (huser : env.userResult = .ok user)
    (hbal : env.balanceResult = .ok b)
    (hble : amount ≤ b)
    (hlookup : env.lookupResult = .ok accts)
    (hne : accts ≠ []) :
    (Transfer env fromUserID user.tigerBeetleAccountID amount).2.head? =
      some (.createTransfers
        [{ id := transferIDOfUUID env.uuidBytes
           debitAccountID := user.tigerBeetleAccountID
           creditAccountID := user.tigerBeetleAccountID
           amount := amount.toNat
           ledger := 1
           code := 3 }]) := by
  have hnpos : ¬ amount ≤ 0 := by omega
  have hnlt : ¬ b < amount := by omega
  have hempty : accts.isEmpty = false := by
    cases accts with
    | nil => exact absurd rfl hne
    | cons a l => rfl
  rcases hc : env.createResult with u | l <;> try cases l
  all_goals cases ha : env.auditResult
  all_goals simp [Transfer, huser, hbal, hlookup, hc, ha, hnpos, hnlt, hempty]

/-- C5 fails on the code: the transfer id is `uuid.New().ID()`, i.e. only the
first four bytes of the freshly drawn 128-bit UUID, so two distinct
invocations — here two distinct valid v4 UUIDs agreeing on the first four
bytes — generate the same transfer id, and two Deposits in otherwise
identical environments submit ledger transfers with identical ids.  Global
uniqueness over the ledger's lifetime is impossible for a 32-bit id (and
fails with probability about `2⁻³²` per pair of calls). -/
theorem transferID_collision :
    ([0, 0, 0, 0, 0, 0, 64, 0, 128, 0, 0, 0, 0, 0, 0, 1] : List Nat) ≠
      [0, 0, 0, 0, 0, 0, 64, 0, 128, 0, 0, 0, 0, 0, 0, 2] ∧
    transferIDOfUUID [0, 0, 0, 0, 0, 0, 64, 0, 128, 0, 0, 0, 0, 0, 0, 1] =
      transferIDOfUUID [0, 0, 0, 0, 0, 0, 64, 0, 128, 0, 0, 0, 0, 0, 0, 2] ∧
    (Deposit
      { systemAccountID := 1
        userResult := .ok ⟨"alice", 42⟩
        balanceResult := .ok 500
        lookupResult := .ok []
        recipientResult := .error ()
        createResult := .ok []
        auditResult := .ok ()
        findResult := .ok ()
        uuidBytes := [0, 0, 0, 0, 0, 0, 64, 0, 128, 0, 0, 0, 0, 0, 0, 1] }
      "alice" 100).2 =
    (Deposit
      { systemAccountID := 1
        userResult := .ok ⟨"alice", 42⟩
        balanceResult := .ok 500
        lookupResult := .ok []
        recipientResult := .error ()
        createResult := .ok []
        auditResult := .ok ()
        findResult := .ok ()
        uuidBytes := [0, 0, 0, 0, 0, 0, 64, 0, 128, 0, 0, 0, 0, 0, 0, 2] }
      "alice" 100).2 := by
  decide

set_option maxRecDepth 100000 in
/-- C7 fails on the code: `extractAmount` multiplies the parsed `float64` by
100 in binary floating point before truncating, and the nearest double to
0.29 times 100 is 28.999999999999996..., so the message `"$0.29"` yields 28
where the claimed exact conversion `⌊0.29 × 100⌋` (second conjunct, computed
over the exact rationals) yields 29.  The claim's other example `"$100.50"`
does hold, because 100.50 is exactly representable. -/
theorem extractAmount_truncation_bug :
    Chat.extractAmount "$0.29" = 28 ∧
    (Chat.PRat.mul ⟨29, 100⟩ ⟨100, 1⟩).floor = 29 ∧
    Chat.extractAmount "$100.50" = 10050 := by
  decide

/-- Witness for C10 at a concrete environment: the sender's own account 13 as
destination. -/
theorem transfer_to_self_not_rejected_witness :
    (Transfer
      { systemAccountID := 1
        userResult := .ok ⟨"erin", 13⟩
        balanceResult := .ok 1000
        lookupResult := .ok [13]
        recipientResult := .ok ⟨"erin", 13⟩
        createResult := .ok []
        auditResult := .ok ()
        findResult := .ok ()
        uuidBytes := [0, 0, 0, 9] } "erin" 13 400).2.head? =
      some (.createTransfers
        [{ id := transferIDOfUUID [0, 0, 0, 9]
           debitAccountID := 13
           creditAccountID := 13
           amount := (400 : Int).toNat
           ledger := 1
           code := 3 }]) :=
  transfer_to_self_not_rejected _ "erin" ⟨"erin", 13⟩ 1000 400 [13]
    (by decide) rfl rfl (by decide) rfl (by decide)

/-- The `ORDER BY created_at DESC` comparison is transitive. -/
theorem newerFirst_trans (a b c : AuditRow) (hab : newerFirst a b = true)
    (hbc : newerFirst b c = true) : newerFirst a c = true := by
  simp only [newerFirst, decide_eq_true_eq] at *
  omega

/-- The `ORDER BY created_at DESC` comparison is total. -/
theorem newerFirst_total (a b : AuditRow) :
    (newerFirst a b || newerFirst b a) = true := by
  simp only [newerFirst, Bool.or_eq_true, decide_eq_true_eq]
  omega

/-- C6: GetHistory never errors on out-of-range pagination values; the
effective page is `page` when `page ≥ 1` and the default 1 otherwise, the
effective limit is `limit` when `1 ≤ limit ≤ 100` and the default 10
otherwise, and the returned rows are exactly the audit rows where the user is
initiator or counterparty, ordered newest-first, at offset
`(effectivePage − 1) × effectiveLimit`, with at most `effectiveLimit` rows
(length bound, membership and ordering are stated as separate conjuncts about
the repository query the result maps over). -/
theorem getHistory_pagination (env : TxEnv) (table : List AuditRow)
    (userID : String) (page limit : Int) (user : User)
    (huser : env.userResult = .ok user)
    (hfind : env.findResult = .ok ()) :
    GetHistory env table userID page limit =
      .ok (((((table.filter (involvesUser user.id)).mergeSort newerFirst).drop
        ((((if page < 1 then 1 else page) - 1) *
          (if limit < 1 ∨ 100 < limit then 10 else limit)).toNat)).take
        ((if limit < 1 ∨ 100 < limit then 10 else limit)).toNat).map toDTO) ∧
    (GetAllByUserID table user.id (if page < 1 then 1 else page)
        (if limit < 1 ∨ 100 < limit then 10 else limit)).length ≤
      (if limit < 1 ∨ 100 < limit then 10 else limit).toNat ∧
    (∀ r ∈ GetAllByUserID table user.id (if page < 1 then 1 else page)
        (if limit < 1 ∨ 100 < limit then 10 else limit),
      involvesUser user.id r = true) ∧
    (GetAllByUserID table user.id (if page < 1 then 1 else page)
        (if limit < 1 ∨ 100 < limit then 10 else limit)).Pairwise
      (fun a b => b.createdAt ≤ a.createdAt) := by
  have hp : (1 : ℤ) ≤ (if page < 1 then 1 else page) := by split <;> omega
  have hl : (1 : ℤ) ≤ (if limit < 1 ∨ 100 < limit then 10 else limit) := by
    split <;> omega
  have hoff : ¬ ((if page < 1 then 1 else page) - 1) *
      (if limit < 1 ∨ 100 < limit then 10 else limit) < 0 := by
    have := mul_nonneg (by omega : (0 : ℤ) ≤ (if page < 1 then 1 else page) - 1)
      (by omega : (0 : ℤ) ≤ (if limit < 1 ∨ 100 < limit then 10 else limit))
    omega
  refine ⟨?_, ?_, ?_, ?_⟩
  · simp only [GetHistory, GetAllByUserID, huser, hfind, if_neg hoff]
  · simp only [GetAllByUserID, if_neg hoff]
    exact List.length_take_le _ _
  · intro r hr
    simp only [GetAllByUserID, if_neg hoff] at hr
    have hr1 : r ∈ (table.filter (involvesUser user.id)).mergeSort newerFirst :=
      List.mem_of_mem_drop (List.mem_of_mem_take hr)
    have hr2 : r ∈ table.filter (involvesUser user.id) :=
      ((List.mergeSort_perm _ _).mem_iff).1 hr1
    exact (List.mem_filter.1 hr2).2
  · have hs := @List.sorted_mergeSort AuditRow newerFirst newerFirst_trans
      newerFirst_total (table.filter (involvesUser user.id))
    simp only [GetAllByUserID, if_neg hoff]
    have hsub :
        ((((table.filter (involvesUser user.id)).mergeSort newerFirst).drop
          ((((if page < 1 then 1 else page) - 1) *
            (if limit < 1 ∨ 100 < limit then 10 else limit)).toNat)).take
          ((if limit < 1 ∨ 100 < limit then 10 else limit)).toNat).Sublist
          ((table.filter (involvesUser user.id)).mergeSort newerFirst) :=
      (List.take_sublist _ _).trans (List.drop_sublist _ _)
    exact (List.Pairwise.sublist hsub hs).imp (fun hab => by
      simpa [newerFirst, decide_eq_true_eq] using hab)

/-- Witness for C6 at a concrete environment and table, with out-of-range
pagination values `page = 0` and `limit = 1000` (clamped to the defaults
1 and 10). -/
theorem getHistory_pagination_witness :
    GetHistory
      { systemAccountID := 1
        userResult := .ok ⟨"u", 5⟩
        balanceResult := .ok 0
        lookupResult := .ok []
        recipientResult := .error ()
        createResult := .ok []
        auditResult := .ok ()
        findResult := .ok ()
        uuidBytes := [0, 0, 0, 1] }
      [⟨"u", none, .deposit, 100, 5⟩, ⟨"x", some "u", .transfer, 50, 9⟩,
        ⟨"x", none, .withdraw, 30, 7⟩] "u" 0 1000 =
      .ok ((((([⟨"u", none, .deposit, 100, 5⟩, ⟨"x", some "u", .transfer, 50, 9⟩,
          ⟨"x", none, .withdraw, 30, 7⟩].filter (involvesUser (User.mk "u" 5).id)).mergeSort
          newerFirst).drop
        ((((if (0 : ℤ) < 1 then 1 else (0 : ℤ)) - 1) *
          (if (1000 : ℤ) < 1 ∨ 100 < (1000 : ℤ) then 10 else (1000 : ℤ))).toNat)).take
        ((if (1000 : ℤ) < 1 ∨ 100 < (1000 : ℤ) then 10 else (1000 : ℤ))).toNat).map toDTO) ∧
    (GetAllByUserID
        [⟨"u", none, .deposit, 100, 5⟩, ⟨"x", some "u", .transfer, 50, 9⟩,
          ⟨"x", none, .withdraw, 30, 7⟩] (User.mk "u" 5).id
        (if (0 : ℤ) < 1 then 1 else (0 : ℤ))
        (if (1000 : ℤ) < 1 ∨ 100 < (1000 : ℤ) then 10 else (1000 : ℤ))).length ≤
      (if (1000 : ℤ) < 1 ∨ 100 < (1000 : ℤ) then 10 else (1000 : ℤ)).toNat ∧
    (∀ r ∈ GetAllByUserID
        [⟨"u", none, .deposit, 100, 5⟩, ⟨"x", some "u", .transfer, 50, 9⟩,
          ⟨"x", none, .withdraw, 30, 7⟩] (User.mk "u" 5).id
        (if (0 : ℤ) < 1 then 1 else (0 : ℤ))
        (if (1000 : ℤ) < 1 ∨ 100 < (1000 : ℤ) then 10 else (1000 : ℤ)),
      involvesUser (User.mk "u" 5).id r = true) ∧
    (GetAllByUserID
        [⟨"u", none, .deposit, 100, 5⟩, ⟨"x", some "u", .transfer, 50, 9⟩,
          ⟨"x", none, .withdraw, 30, 7⟩] (User.mk "u" 5).id
        (if (0 : ℤ) < 1 then 1 else (0 : ℤ))
        (if (1000 : ℤ) < 1 ∨ 100 < (1000 : ℤ) then 10 else (1000 : ℤ))).Pairwise
      (fun a b => b.createdAt ≤ a.createdAt) :=
  getHistory_pagination _
    [⟨"u", none, .deposit, 100, 5⟩, ⟨"x", some "u", .transfer, 50, 9⟩,
      ⟨"x", none, .withdraw, 30, 7⟩] "u" 0 1000 ⟨"u", 5⟩ rfl rfl

end Banking

namespace Banking.Resolve

/-- C8 as stated fails on the code: the DNS retry loop contains no delay at
all (the loop body only carries a comment noting a sleep could be added), so
"short backoff between attempts" does not hold.  At a concrete environment
where the host is not an IP and all three resolution attempts fail, the
network trace is exactly three back-to-back lookups followed by the connect
attempt with the original unresolved address — no sleep event occurs between
the attempts. -/
theorem resolve_no_backoff_counterexample :
    NewClientResolve
      { splitResult := some ("tigerbeetle", "3000")
        hostIsIP := false
        lookups := fun _ => .error () } "tigerbeetle:3000" =
      ("tigerbeetle:3000",
        [.lookupHost "tigerbeetle", .lookupHost "tigerbeetle",
          .lookupHost "tigerbeetle", .connect "tigerbeetle:3000"]) ∧
    NetEvent.sleep ∉
      (NewClientResolve
        { splitResult := some ("tigerbeetle", "3000")
          hostIsIP := false
          lookups := fun _ => .error () } "tigerbeetle:3000").2 := by
  constructor
  · rfl
  · decide

/-- C8 amended: when the configured address is a hostname, the client
resolves it before connecting, retrying resolution up to 3 times with no
delay between attempts (no backoff is implemented); if all 3 attempts fail it
falls back to connecting with the original unresolved address, logging a
warning, rather than aborting client creation: the trace is exactly three
lookups followed by a connect on the original address. -/
theorem resolve_fallback_after_three_attempts (env : NetEnv)
    (address host port : String)
    (hsplit : env.splitResult = some (host, port))
    (hip : env.hostIsIP = false)
    (h1 : lookupGood (env.lookups 1) = false)
    (h2 : lookupGood (env.lookups 2) = false)
    (h3 : lookupGood (env.lookups 3) = false) :
    NewClientResolve env address =
      (address, [.lookupHost host, .lookupHost host, .lookupHost host,
        .connect address]) := by
  have hattempts : resolveAttempts env host =
      (env.lookups 3, [.lookupHost host, .lookupHost host, .lookupHost host]) := by
    simp [resolveAttempts, h1, h2]
  rcases h3' : env.lookups 3 with u | ips
  · simp [NewClientResolve, resolveAddress, hsplit, hip, hattempts, h3']
  · have hnil : ips = [] := by
      rw [h3'] at h3
      cases ips with
      | nil => rfl
      | cons a l => simp [lookupGood] at h3
    subst hnil
    simp [NewClientResolve, resolveAddress, hsplit, hip, hattempts, h3']

/-- Witness for the amended C8 at a concrete environment whose three lookup
attempts all return an empty address list. -/
theorem resolve_fallback_after_three_attempts_witness :
    NewClientResolve
      { splitResult := some ("db", "3001")
        hostIsIP := false
        lookups := fun _ => .ok [] } "db:3001" =
      ("db:3001", [.lookupHost "db", .lookupHost "db", .lookupHost "db",
        .connect "db:3001"]) :=
  resolve_fallback_after_three_attempts _ "db:3001" "db" "3001" rfl rfl rfl rfl rfl

end Banking.Resolve

namespace Banking.Chat

/-- The confirmation prompt is never empty: each per-tool prompt is a
nonempty concatenation and the fallback prompt is a nonempty literal. -/
theorem getConfirmationMessage_ne_empty (name : String) (args : Args) :
    getConfirmationMessage name args ≠ "" := by
  have hlen : ∀ s u : String, 0 < u.length → s ++ u ≠ "" := by
    intro s u hu h
    have h' : s.length + u.length = 0 := by
      simpa [String.length_append] using congrArg String.length h
    omega
  unfold getConfirmationMessage
  split
  · split
    · exact hlen _ "?" (by decide)
    · decide
  · split
    · exact hlen _ "?" (by decide)
    · decide
  · split
    · exact hlen _ "?" (by decide)
    · decide
  · decide

/-- C1: for every catalog tool whose entry has `requiresConfirmation = true`
(every entry of the constructed server has a handler), and for every user,
argument map and bank state, `ExecuteTool` with `confirmed = false` returns
the confirmation-required result carrying a (nonempty) human-readable prompt
together with the original tool name and arguments, with no Go error; the
handler is not invoked — the result does not depend on any of the five
handlers — and the bank state is returned unchanged. -/
theorem executeTool_requires_confirmation {σ : Type}
    (hB hH hD hW hT : ToolHandler σ) (name userID : String) (args : Args)
    (tool : Tool σ) (st : σ)
    (hfind : (mkMCPServer hB hH hD hW hT).tools name = some tool)
    (hreq : tool.requiresConfirmation = true) :
    ExecuteTool (mkMCPServer hB hH hD hW hT) name userID args false st =
      (({ success := false
          requiresConfirmation := true
          confirmationMessage := getConfirmationMessage name args
          toolName := name
          arguments := args
          message := "Confirmation required for this operation" }, none), st) ∧
    getConfirmationMessage name args ≠ "" := by
  refine ⟨?_, getConfirmationMessage_ne_empty name args⟩
  unfold mkMCPServer at hfind
  simp only at hfind
  split at hfind
  -- the two read-only tools have `requiresConfirmation = false`, contradicting
  -- `hreq`; the three money-moving tools reduce to the confirmation result
  · cases Option.some.inj hfind
    simp at hreq
  · cases Option.some.inj hfind
    simp at hreq
  · cases Option.some.inj hfind
    simp [ExecuteTool, mkMCPServer, getConfirmationMessage]
  · cases Option.some.inj hfind
    simp [ExecuteTool, mkMCPServer, getConfirmationMessage]
  · cases Option.some.inj hfind
    simp [ExecuteTool, mkMCPServer, getConfirmationMessage]
  · exact Option.noConfusion hfind

/-- Witness for C1: the `withdraw` tool (confirmation required) invoked
unconfirmed with amount 50, over the unit bank state and no-op handlers. -/
theorem executeTool_requires_confirmation_witness :
    ExecuteTool
      (mkMCPServer ((fun _ _ st => (({}, none), st)) : ToolHandler Unit)
        (fun _ _ st => (({}, none), st)) (fun _ _ st => (({}, none), st))
        (fun _ _ st => (({}, none), st)) (fun _ _ st => (({}, none), st)))
      "withdraw" "alice" [("amount", .num 50)] false () =
      (({ success := false
          requiresConfirmation := true
          confirmationMessage := getConfirmationMessage "withdraw" [("amount", .num 50)]
          toolName := "withdraw"
          arguments := [("amount", .num 50)]
          message := "Confirmation required for this operation" }, none), ()) ∧
    getConfirmationMessage "withdraw" [("amount", .num 50)] ≠ "" :=
  executeTool_requires_confirmation _ _ _ _ _ "withdraw" "alice"
    [("amount", .num 50)] _ () rfl rfl

end Banking.Chat
